import Mathlib

/-!
# TPS: crash watcher and instance status

A shallow embedding of `watcher/watcher.go` (the event watcher of the TPS
service) and of the status aggregation exercised by
`cmd/tps-listener/main_test.go`.

* Pure code (`handleEvent`, the bodies of the goroutines) becomes Lean functions
  that return the list of effects they perform, in program order.
* The `select` loop of `Watcher.Run` becomes `loopBody`, one iteration of the
  loop for one received message, and `sysStep`, a transition function over the
  loop state, the running goroutines and the two buffered channels.
* Collaborators that live in other packages (`ActualLRPGroup.Resolve`,
  `cc_messages.AppLRPDomain`, the results of `SubscribeToEvents`, `Next`,
  `Close` and `AppCrashed`) are parameters or inputs of the model.
-/

namespace Tps

/-! ## Data model -/

/-- The fields of `models.ActualLRP` that the watcher reads.  `Index` and
`CrashCount` are `int32` in Go; they are only compared and widened to `int`,
so integers model them exactly. -/
structure ActualLRP where
  ProcessGuid : String
  Index : Int
  Domain : String
  InstanceGuid : String
  CrashCount : Int
  CrashReason : String
  Since : Int
deriving DecidableEq, Repr

/-- The pair of snapshots `models.ActualLRPGroup`. -/
structure ActualLRPGroup where
  Instance : Option ActualLRP
  Evacuating : Option ActualLRP
deriving DecidableEq, Repr

/-- Values of the interface `models.Event`.  `ActualLRPChangedEvent` is the only
implementation that `handleEvent` inspects; every other implementation is
`otherEvent`, tagged by its event type. -/
inductive Event where
  | ActualLRPChangedEvent (Before After : ActualLRPGroup)
  | otherEvent (eventType : String)
deriving DecidableEq, Repr

/-- The message `cc_messages.AppCrashedRequest`. -/
structure AppCrashedRequest where
  Instance : String
  Index : Int
  Reason : String
  ExitDescription : String
  CrashCount : Int
  CrashTimestamp : Int
deriving DecidableEq, Repr

/-- What the watcher takes from other packages: the constant
`cc_messages.AppLRPDomain` and the method `ActualLRPGroup.Resolve` (its second
result is discarded by the watcher). -/
structure Env where
  AppLRPDomain : String
  Resolve : ActualLRPGroup → ActualLRP

/-- A handle on an `events.EventSource`; the interface value `nil` is `none` in
`Option EventSource`. -/
abbrev EventSource := Nat

/-- The closure passed to `watcher.pool.Submit` in `handleEvent`, as the two
variables it captures. -/
structure NotifyTask where
  guid : String
  appCrashed : AppCrashedRequest
deriving DecidableEq, Repr

/-- The goroutines started by `Watcher.Run`. -/
inductive Goroutine where
  | subscribeToEvents
  | nextEvent (es : Option EventSource)
deriving DecidableEq, Repr

/-- Observable actions, recorded in program order. -/
inductive Effect where
  | logInfo (msg : String)
  | logError (msg : String) (err : String)
  | submit (task : NotifyTask)
  | appCrashedCall (guid : String) (req : AppCrashedRequest)
  | spawn (g : Goroutine)
  | closeSource (es : EventSource)
  | closeReady
deriving DecidableEq, Repr

/-! ## `handleEvent` and the notification task -/

/-- The body of `Watcher.handleEvent`: the effects performed for one event. -/
def handleEvent (env : Env) (event : Event) : List Effect :=
  match event with
  | .ActualLRPChangedEvent Before After =>
    let after := env.Resolve After
    if after.Domain = env.AppLRPDomain then
      let before := env.Resolve Before
      if after.CrashCount > before.CrashCount then
        [ Effect.logInfo "app-crashed",
          Effect.submit
            { guid := after.ProcessGuid
              appCrashed :=
                { Instance := before.InstanceGuid
                  Index := after.Index
                  Reason := "CRASHED"
                  ExitDescription := after.CrashReason
                  CrashCount := after.CrashCount
                  CrashTimestamp := after.Since } } ]
      else []
    else []
  | .otherEvent _ => []

/-- The tasks handed to the worker pool among a list of effects. -/
def submitted : List Effect → List NotifyTask
  | [] => []
  | Effect.submit t :: rest => t :: submitted rest
  | _ :: rest => submitted rest

/-- The body of the closure submitted by `handleEvent`, run by a pool worker.
`AppCrashed` is the result of `watcher.ccClient.AppCrashed` (`none` is a nil
error).  The closure has no result. -/
def NotifyTask.run (AppCrashed : String → AppCrashedRequest → Option String)
    (t : NotifyTask) : List Effect :=
  [Effect.logInfo "recording-app-crashed", Effect.appCrashedCall t.guid t.appCrashed] ++
    match AppCrashed t.guid t.appCrashed with
    | none => []
    | some err => [Effect.logError "failed-recording-app-crashed" err]

/-- The calls of the notification sink among a list of effects. -/
def sinkCalls : List Effect → List (String × AppCrashedRequest)
  | [] => []
  | Effect.appCrashedCall g r :: rest => (g, r) :: sinkCalls rest
  | _ :: rest => sinkCalls rest

/-! ## The goroutines -/

/-- The result of `bbsClient.SubscribeToEvents()`. -/
inductive SubscribeResult where
  | ok (es : EventSource)
  | failed (err : String)
deriving DecidableEq, Repr

/-- The error result of `EventSource.Next()`. -/
inductive NextError where
  | ErrSourceClosed
  | otherError (err : String)
deriving DecidableEq, Repr

/-- The result pair of `EventSource.Next()`. -/
structure NextResult where
  event : Option Event
  err : Option NextError
deriving DecidableEq, Repr

/-- The body of `subscribeToEvents`: its log lines and the value it sends on
`subscriptionChan`. -/
def subscribeToEvents (r : SubscribeResult) : List Effect × Option EventSource :=
  match r with
  | .failed err =>
    ([Effect.logInfo "subscribing-to-events",
      Effect.logError "failed-subscribing-to-events" err], none)
  | .ok es =>
    ([Effect.logInfo "subscribing-to-events",
      Effect.logInfo "subscribed-to-events"], some es)

/-- The body of `nextEvent` once `es.Next()` has returned `r`: its log lines and
the value it sends on `eventChan`, if it sends one.  The one-second sleep before
the send of `nil` is not modelled. -/
def nextEvent (r : NextResult) : List Effect × Option (Option Event) :=
  match r.err with
  | none => ([], some r.event)
  | some NextError.ErrSourceClosed => ([], none)
  | some (NextError.otherError err) =>
    ([Effect.logError "failed-getting-next-event" err], some none)

/-! ## The loop of `Watcher.Run` -/

/-- The variables of `Watcher.Run` that live across iterations. -/
structure LoopState where
  subscription : Option EventSource
  nextErrCount : Nat
deriving DecidableEq, Repr

/-- What one `select` receives.  `signal` carries the result that
`subscription.Close()` will return. -/
inductive Msg where
  | subscription (es : Option EventSource)
  | event (event : Option Event)
  | signal (closeErr : Option String)
deriving DecidableEq, Repr

/-- How one iteration of the loop ends.  `returned` carries the `error` result
of `Run` (`none` is nil); `panicked` is a run-time panic of the loop. -/
inductive Outcome where
  | continues (st : LoopState) (effects : List Effect)
  | returned (result : Option String) (effects : List Effect)
  | panicked (effects : List Effect)
deriving DecidableEq, Repr

/-- One iteration of the `for { select { ... } }` loop of `Watcher.Run`, for the
message `m` received by the `select`.  Calling `Close` on the nil interface
value panics; the deferred `finished` log line runs on both ways out. -/
def loopBody (env : Env) (st : LoopState) (m : Msg) : Outcome :=
  match m with
  | .subscription s =>
    match s with
    | some es =>
      .continues { st with subscription := some es }
        [Effect.spawn (Goroutine.nextEvent (some es))]
    | none =>
      .continues { st with subscription := none }
        [Effect.spawn Goroutine.subscribeToEvents]
  | .event (some e) =>
    .continues st (handleEvent env e ++ [Effect.spawn (Goroutine.nextEvent st.subscription)])
  | .event none =>
    if st.nextErrCount + 1 > 2 then
      .continues { st with nextErrCount := 0 } [Effect.spawn Goroutine.subscribeToEvents]
    else
      .continues { st with nextErrCount := st.nextErrCount + 1 }
        [Effect.spawn (Goroutine.nextEvent st.subscription)]
  | .signal closeErr =>
    match st.subscription with
    | none => .panicked [Effect.logInfo "stopping", Effect.logInfo "finished"]
    | some es =>
      .returned none
        ([Effect.logInfo "stopping", Effect.closeSource es] ++
          (match closeErr with
            | none => []
            | some err => [Effect.logError "failed-closing-event-source" err]) ++
          [Effect.logInfo "finished"])

/-- The goroutines started among a list of effects. -/
def spawned : List Effect → List Goroutine
  | [] => []
  | Effect.spawn g :: rest => g :: spawned rest
  | _ :: rest => spawned rest

/-- The loop state and effects after a list of messages, when the loop keeps
running through all of them. -/
def loopRun (env : Env) (st : LoopState) : List Msg → Option (LoopState × List Effect)
  | [] => some (st, [])
  | m :: ms =>
    match loopBody env st m with
    | .continues st1 effs =>
      match loopRun env st1 ms with
      | some (st2, effs2) => some (st2, effs ++ effs2)
      | none => none
    | _ => none

/-! ## `Watcher.Run` with its goroutines and channels -/

/-- Whether `Run` is still in its loop, has returned, or has panicked (in the
loop or in one of its goroutines). -/
inductive Status where
  | running
  | returned (result : Option String)
  | panicked
deriving DecidableEq, Repr

/-- The state of a run of `Watcher.Run`: the loop variables, the goroutines that
have been started and have not finished, the contents of the two channels
(both made with capacity 1), and the effects so far. -/
structure Sys where
  loop : LoopState
  goroutines : List Goroutine
  subscriptionChan : List (Option EventSource)
  eventChan : List (Option Event)
  status : Status
  trace : List Effect
deriving DecidableEq, Repr

/-- What happens next in a run: a goroutine finishes (the result of its call
is chosen by the collaborator), the `select` takes one of its ready cases, or a
signal arrives and the `select` takes it. -/
inductive Input where
  | subscribeReturns (r : SubscribeResult)
  | nextReturns (es : Option EventSource) (r : NextResult)
  | selectSubscription
  | selectEvent
  | signal (closeErr : Option String)
deriving DecidableEq, Repr

/-- The state when `Watcher.Run` enters its loop: the first subscribe attempt
has been started, both channels are empty, `ready` has been closed. -/
def Run.init : Sys :=
  { loop := { subscription := none, nextErrCount := 0 }
    goroutines := [Goroutine.subscribeToEvents]
    subscriptionChan := []
    eventChan := []
    status := Status.running
    trace := [Effect.logInfo "starting", Effect.spawn Goroutine.subscribeToEvents,
      Effect.closeReady, Effect.logInfo "started"] }

/-- The state after one loop iteration that ended with `o`. -/
def applyOutcome (s : Sys) (o : Outcome) : Sys :=
  match o with
  | .continues st effs =>
    { s with loop := st, goroutines := s.goroutines ++ spawned effs, trace := s.trace ++ effs }
  | .returned result effs =>
    { s with status := Status.returned result, trace := s.trace ++ effs }
  | .panicked effs =>
    { s with status := Status.panicked, trace := s.trace ++ effs }

/-- Whether `Close` has been called on the event source `es` in this run. -/
def Sys.closed (s : Sys) (es : EventSource) : Bool :=
  s.trace.contains (Effect.closeSource es)

/-- One step of a run, `none` when the step cannot happen in `s`.  The loop
takes a `select` case only while `Run` is in its loop; the goroutines keep
running after `Run` has returned, and nothing runs after a panic.  A goroutine
must be running to finish, a send needs room in the channel (capacity 1), and a
receive needs a value in the channel.  A `nextEvent` goroutine started on the
nil event source panics when it calls `Next`.  By the contract of
`events.EventSource`, `Next` reports `ErrSourceClosed` only on a source on which
`Close` has been called. -/
def sysStep (env : Env) (s : Sys) (i : Input) : Option Sys :=
  match i with
  | .subscribeReturns r =>
    if s.status ≠ Status.panicked ∧ s.goroutines.contains Goroutine.subscribeToEvents ∧
        s.subscriptionChan.length < 1 then
      some { s with
        goroutines := s.goroutines.erase Goroutine.subscribeToEvents
        subscriptionChan := s.subscriptionChan ++ [(subscribeToEvents r).2]
        trace := s.trace ++ (subscribeToEvents r).1 }
    else none
  | .nextReturns es r =>
    if s.status ≠ Status.panicked ∧ s.goroutines.contains (Goroutine.nextEvent es) then
      match es with
      | none => some { s with status := Status.panicked }
      | some e =>
        if r.err = some NextError.ErrSourceClosed ∧ s.closed e = false then none
        else
          match (nextEvent r).2 with
          | none =>
            some { s with
              goroutines := s.goroutines.erase (Goroutine.nextEvent es)
              trace := s.trace ++ (nextEvent r).1 }
          | some v =>
            if s.eventChan.length < 1 then
              some { s with
                goroutines := s.goroutines.erase (Goroutine.nextEvent es)
                eventChan := s.eventChan ++ [v]
                trace := s.trace ++ (nextEvent r).1 }
            else none
    else none
  | .selectSubscription =>
    if s.status ≠ Status.running then none
    else
      match s.subscriptionChan with
      | [] => none
      | v :: rest =>
        some (applyOutcome { s with subscriptionChan := rest }
          (loopBody env s.loop (Msg.subscription v)))
  | .selectEvent =>
    if s.status ≠ Status.running then none
    else
      match s.eventChan with
      | [] => none
      | v :: rest =>
        some (applyOutcome { s with eventChan := rest } (loopBody env s.loop (Msg.event v)))
  | .signal closeErr =>
    if s.status ≠ Status.running then none
    else some (applyOutcome s (loopBody env s.loop (Msg.signal closeErr)))

/-- The state after a list of steps, `none` when one of them cannot happen. -/
def run (env : Env) (s : Sys) : List Input → Option Sys
  | [] => some s
  | i :: is =>
    match sysStep env s i with
    | some s1 => run env s1 is
    | none => none

/-- Whether an input is the arrival of the shutdown signal. -/
def Input.isSignal : Input → Bool
  | .signal _ => true
  | _ => false

/-- The number of subscribe attempts and next-event fetches that have been
started and whose result the loop has not received: goroutines still running
and values waiting in the two channels. -/
def Sys.outstanding (s : Sys) : Nat :=
  s.goroutines.length + s.subscriptionChan.length + s.eventChan.length

/-- The number of next-event fetches that have been started and whose result
the loop has not received. -/
def Sys.outstandingFetches (s : Sys) : Nat :=
  (s.goroutines.filter (fun g => g != Goroutine.subscribeToEvents)).length + s.eventChan.length

/-- A sample environment: the reserved domain is `cf-apps`, and `Resolve` returns
the instance snapshot when the group has one, else the evacuating one. -/
def sampleEnv : Env :=
  { AppLRPDomain := "cf-apps"
    Resolve := fun g =>
      match g.Instance, g.Evacuating with
      | some a, _ => a
      | none, some a => a
      | none, none =>
        { ProcessGuid := "", Index := 0, Domain := "", InstanceGuid := "", CrashCount := 0,
          CrashReason := "", Since := 0 } }

/-- A sample snapshot in the reserved domain with the given instance identifier
and crash count. -/
def sampleLRP (instanceGuid : String) (crashCount : Int) : ActualLRPGroup :=
  { Instance := some
      { ProcessGuid := "app-1", Index := 2, Domain := "cf-apps", InstanceGuid := instanceGuid,
        CrashCount := crashCount, CrashReason := "out of memory", Since := 1700 }
    Evacuating := none }

/-- A sample state: the first subscribe attempt succeeded with source 7 and the
loop has started the first fetch on it. -/
def sampleSubscribed : Sys :=
  { loop := { subscription := some 7, nextErrCount := 0 }
    goroutines := [Goroutine.nextEvent (some 7)]
    subscriptionChan := []
    eventChan := []
    status := Status.running
    trace := [Effect.logInfo "starting", Effect.spawn Goroutine.subscribeToEvents,
      Effect.closeReady, Effect.logInfo "started", Effect.logInfo "subscribing-to-events",
      Effect.logInfo "subscribed-to-events", Effect.spawn (Goroutine.nextEvent (some 7))] }

/-- A sample state: after `sampleSubscribed`, the first fetch failed once and
the loop has started the next fetch on the same source. -/
def sampleOneFailure : Sys :=
  { sampleSubscribed with
    loop := { subscription := some 7, nextErrCount := 1 }
    trace := sampleSubscribed.trace ++
      [Effect.logError "failed-getting-next-event" "eof",
        Effect.spawn (Goroutine.nextEvent (some 7))] }

/-- The effects of one loop iteration. -/
def Outcome.effects : Outcome → List Effect
  | .continues _ effs => effs
  | .returned _ effs => effs
  | .panicked effs => effs

/-- The crash-detection rule in the words of the specification: the event is a
change event, the domain of its after snapshot is the reserved application
domain, and the crash count of the after snapshot is greater than that of the
before snapshot. -/
def isCrashTransition (env : Env) : Event → Bool
  | .ActualLRPChangedEvent Before After =>
    decide ((env.Resolve After).Domain = env.AppLRPDomain) &&
      decide ((env.Resolve After).CrashCount > (env.Resolve Before).CrashCount)
  | .otherEvent _ => false

/-- The shapes that the goroutines and channels of a run can take: one subscribe
attempt running, or its result waiting in `subscriptionChan`, or one fetch
running on the current subscription, or its result waiting in `eventChan`, or
nothing at all (after the source was closed). -/
def Sys.Inv (s : Sys) : Prop :=
  (s.goroutines = [Goroutine.subscribeToEvents] ∧ s.subscriptionChan = [] ∧ s.eventChan = []) ∨
  (∃ v, s.goroutines = [] ∧ s.subscriptionChan = [v] ∧ s.eventChan = []) ∨
  (∃ es, s.goroutines = [Goroutine.nextEvent (some es)] ∧ s.subscriptionChan = [] ∧
    s.eventChan = [] ∧ s.loop.subscription = some es) ∨
  (∃ es v, s.goroutines = [] ∧ s.subscriptionChan = [] ∧ s.eventChan = [v] ∧
    s.loop.subscription = some es) ∨
  (s.goroutines = [] ∧ s.subscriptionChan = [] ∧ s.eventChan = [])

/-! ## Status aggregation -/

/-- Modelled from the spec: the lifecycle states of an instance (the status
handlers are not among the sources; the data model of the status operations
follows section 3 of the specification). -/
inductive InstanceState where
  | Starting
  | Running
  | Crashed
  | Unknown
deriving DecidableEq, Repr

/-- Modelled from the spec: the DesiredRecord of a process, whose declaration is
not among the sources. -/
structure DesiredRecord where
  processGuid : String
  domain : String
  instances : Nat
  logGuid : String
deriving DecidableEq, Repr

/-- Modelled from the spec: the placement location of a running instance. -/
structure Placement where
  host : String
  port : Nat
deriving DecidableEq, Repr

/-- Modelled from the spec: the ActualInstanceRecord of one instance slot, whose
declaration is not among the sources. -/
structure ActualInstanceRecord where
  processGuid : String
  index : Nat
  instanceGuid : String
  state : InstanceState
  placement : Option Placement
deriving DecidableEq, Repr

/-- Modelled from the spec: the UsageSample embedded in a view. -/
structure UsageSample where
  time : Int
  cpu : Rat
  memoryBytes : Nat
  diskBytes : Nat
deriving DecidableEq, Repr

/-- Modelled from the spec: the InstanceStatusView, the output unit of the
status operations; no placement is the empty host with port 0. -/
structure InstanceStatusView where
  processGuid : String
  index : Nat
  instanceGuid : String
  state : InstanceState
  host : String
  port : Nat
  usage : Option UsageSample
deriving DecidableEq, Repr

/-- Modelled from the spec: the failures of a status request. -/
inductive StatusError where
  | NotFound
  | UpstreamUnavailable
deriving DecidableEq, Repr

/-- Modelled from the spec: the directory client interface used by the status
operations (`GetDesired`, `GetActualInstances`). -/
structure Directory where
  GetDesired : String → Except StatusError DesiredRecord
  GetActualInstances : String → Except StatusError (List ActualInstanceRecord)

/-- Modelled from the spec: the projection of an ActualInstanceRecord into a view
(state, instance identifier, placement), missing from the sources. -/
def projectRecord (a : ActualInstanceRecord) : InstanceStatusView :=
  { processGuid := a.processGuid
    index := a.index
    instanceGuid := a.instanceGuid
    state := a.state
    host := match a.placement with
      | some p => p.host
      | none => ""
    port := match a.placement with
      | some p => p.port
      | none => 0
    usage := none }

/-- Modelled from the spec: the placeholder view of an index without a record,
missing from the sources. -/
def placeholderView (processGuid : String) (i : Nat) : InstanceStatusView :=
  { processGuid := processGuid
    index := i
    instanceGuid := ""
    state := InstanceState.Starting
    host := ""
    port := 0
    usage := none }

/-- Modelled from the spec: step 3 of the single-process status operation, the
reconciliation of the declared instance count with the observed records, missing
from the sources. -/
def reconcile (desired : DesiredRecord) (actuals : List ActualInstanceRecord) :
    List InstanceStatusView :=
  (List.range desired.instances).map fun i =>
    match actuals.find? (fun a => a.index == i) with
    | some a => projectRecord a
    | none => placeholderView desired.processGuid i

/-- Modelled from the spec: the single-process status operation without stats
(section 4.2, steps 1 to 4), whose handler is missing from the sources. -/
def lrpStatus (dir : Directory) (guid : String) : Except StatusError (List InstanceStatusView) :=
  match dir.GetDesired guid with
  | .error e => .error e
  | .ok desired =>
    match dir.GetActualInstances guid with
    | .error e => .error e
    | .ok actuals => .ok (reconcile desired actuals)

/-- A sample DesiredRecord: three declared instances, as in the listener test. -/
def sampleDesired : DesiredRecord :=
  { processGuid := "some-process-guid", domain := "some-domain", instances := 3,
    logGuid := "some-log-guid" }

/-- Sample records for the indices 0 (claimed) and 1 (running), as in the
listener test; index 2 has no record. -/
def sampleActuals : List ActualInstanceRecord :=
  [ { processGuid := "some-process-guid", index := 0, instanceGuid := "some-instance-guid-0",
      state := InstanceState.Starting, placement := none },
    { processGuid := "some-process-guid", index := 1, instanceGuid := "some-instance-guid-1",
      state := InstanceState.Running, placement := some { host := "1.2.3.4", port := 65100 } } ]

/-- A sample directory that knows the one process of `sampleDesired`. -/
def sampleDirectory : Directory :=
  { GetDesired := fun guid =>
      if guid = "some-process-guid" then .ok sampleDesired else .error StatusError.NotFound
    GetActualInstances := fun guid =>
      if guid = "some-process-guid" then .ok sampleActuals else .ok [] }

/-- The number of failed fetches (nil received from `eventChan`) in a sequence
of next-event results. -/
def failureCount (ms : List (Option Event)) : Nat :=
  (ms.filter Option.isNone).length

/-- A sample event that `handleEvent` ignores. -/
def sampleDelivered : Option Event := some (Event.otherEvent "desired_lrp_created")

/-! ## Status with stats -/

/-- Modelled from the spec: a decoded metric envelope of the telemetry stream,
whose declaration is not among the sources.  Only container resource-usage
envelopes are decoded by the status operation; the CPU percentage is the raw
value, a rational here. -/
inductive Envelope where
  | containerMetric (index : Nat) (cpuPercentage : Rat) (memoryBytes : Nat) (diskBytes : Nat)
      (timestamp : Int)
  | otherEnvelope (eventType : String)
deriving DecidableEq, Repr

/-- Modelled from the spec: the telemetry client interface (`OpenSession`); a
session that opens yields the envelopes drained within the collection window. -/
structure Telemetry where
  OpenSession : String → Except String (List Envelope)

/-- Modelled from the spec: the merge of one envelope into the views (section
4.2, steps 3 and 4 of the stats operation), missing from the sources: a
resource-usage envelope replaces the usage sample of the view with its index,
with the CPU stored as the raw percentage divided by 100. -/
def mergeEnvelope (views : List InstanceStatusView) (e : Envelope) : List InstanceStatusView :=
  match e with
  | .containerMetric index cpu mem disk ts =>
    views.map fun v =>
      if v.index = index then
        { v with usage := some { time := ts, cpu := cpu / 100, memoryBytes := mem,
                                 diskBytes := disk } }
      else v
  | .otherEnvelope _ => views

/-- Modelled from the spec: the single-process status operation with stats
(section 4.2), whose handler is missing from the sources: the base views of the
no-stats operation, then the samples of the telemetry session merged by index in
arrival order; when the session cannot be opened the base views are returned. -/
def lrpStats (dir : Directory) (tel : Telemetry) (guid : String) :
    Except StatusError (List InstanceStatusView) :=
  match dir.GetDesired guid with
  | .error e => .error e
  | .ok desired =>
    match dir.GetActualInstances guid with
    | .error e => .error e
    | .ok actuals =>
      match tel.OpenSession desired.logGuid with
      | .error _ => .ok (reconcile desired actuals)
      | .ok envelopes => .ok (envelopes.foldl mergeEnvelope (reconcile desired actuals))

/-- A sample telemetry client whose broker is unreachable. -/
def sampleTelemetryDown : Telemetry :=
  { OpenSession := fun _ => .error "connection refused" }

/-- A sample telemetry client that delivers one sample for index 0, as in the
listener test. -/
def sampleTelemetryUp : Telemetry :=
  { OpenSession := fun _ => .ok [Envelope.containerMetric 0 3 1024 2048 0] }

/-- A sample state: after `sampleSubscribed`, the shutdown signal arrived and
`Run` closed source 7 and returned while the fetch on it is still running. -/
def sampleShutDown : Sys :=
  { sampleSubscribed with
    status := Status.returned none
    trace := sampleSubscribed.trace ++
      [Effect.logInfo "stopping", Effect.closeSource 7, Effect.logInfo "finished"] }

/-- What holds of the status along a run: a returned `Run` has the result nil,
and `Close` has been called on a source only when `Run` has returned. -/
def Sys.Closing (s : Sys) : Prop :=
  (∀ result, s.status = Status.returned result → result = none) ∧
  (∀ es, Effect.closeSource es ∈ s.trace → s.status = Status.returned none)

/-! ## Theorems: crash detection -/

/-- C1: for every event passed to `handleEvent`, exactly one notification task is
submitted to the worker pool when the event is a change event whose after
snapshot is in the reserved application domain with a crash count greater than
that of the before snapshot, and no task is submitted in every other case. -/
theorem handleEvent_submits_one_iff_crash (env : Env) (event : Event) :
    (submitted (handleEvent env event)).length =
      if isCrashTransition env event then 1 else 0 := by
  cases event with
  | otherEvent t => simp [handleEvent, isCrashTransition, submitted]
  | ActualLRPChangedEvent b a =>
    by_cases hd : (env.Resolve a).Domain = env.AppLRPDomain
    · by_cases hc : (env.Resolve a).CrashCount > (env.Resolve b).CrashCount
      · simp [handleEvent, isCrashTransition, submitted, hd, hc]
      · simp [handleEvent, isCrashTransition, submitted, hd, hc]
    · simp [handleEvent, isCrashTransition, submitted, hd]

/-! ## Theorems: the error counter -/

/-- C2: starting from an error counter of 0 on a live subscription, a failed
`Next` makes `nextEvent` send nil, and the first and the second nil received by
the loop each start one more fetch on the same subscription and no subscribe
attempt, while the third starts a subscribe attempt, no fetch, and leaves the
counter at 0. -/
theorem three_failures_resubscribe (env : Env) (es : EventSource) (ev : Option Event)
    (err : String) :
    (nextEvent { event := ev, err := some (NextError.otherError err) }).2 = some none ∧
    loopBody env { subscription := some es, nextErrCount := 0 } (Msg.event none) =
      Outcome.continues { subscription := some es, nextErrCount := 1 }
        [Effect.spawn (Goroutine.nextEvent (some es))] ∧
    loopBody env { subscription := some es, nextErrCount := 1 } (Msg.event none) =
      Outcome.continues { subscription := some es, nextErrCount := 2 }
        [Effect.spawn (Goroutine.nextEvent (some es))] ∧
    loopBody env { subscription := some es, nextErrCount := 2 } (Msg.event none) =
      Outcome.continues { subscription := some es, nextErrCount := 0 }
        [Effect.spawn Goroutine.subscribeToEvents] := by
  refine ⟨rfl, ?_, ?_, ?_⟩ <;> simp [loopBody]

/-- Starting goroutines distributes over the concatenation of effects. -/
theorem spawned_append (xs ys : List Effect) :
    spawned (xs ++ ys) = spawned xs ++ spawned ys := by
  induction xs with
  | nil => rfl
  | cons x xs ih => cases x <;> simp [spawned, ih]

/-- The function `handleEvent` starts no goroutine. -/
theorem spawned_handleEvent (env : Env) (e : Event) : spawned (handleEvent env e) = [] := by
  cases e with
  | otherEvent t => rfl
  | ActualLRPChangedEvent b a =>
    simp only [handleEvent]
    split_ifs <;> rfl

/-- The loop over next-event results, from any counter value: while fewer than
three failures have been counted, the counter is the number of failures and no
subscribe attempt is started. -/
theorem loopRun_events (env : Env) (es : EventSource) (ms : List (Option Event)) :
    ∀ c : Nat, c + failureCount ms < 3 →
      ∃ effs, loopRun env { subscription := some es, nextErrCount := c } (ms.map Msg.event) =
          some ({ subscription := some es, nextErrCount := c + failureCount ms }, effs) ∧
        Goroutine.subscribeToEvents ∉ spawned effs := by
  induction ms with
  | nil => intro c _; exact ⟨[], by simp [loopRun, failureCount], by simp [spawned]⟩
  | cons m ms ih =>
    intro c hc
    cases m with
    | some e =>
      have hf : failureCount (some e :: ms) = failureCount ms := by simp [failureCount]
      rw [hf] at hc ⊢
      obtain ⟨effs, hrun, hsp⟩ := ih c hc
      refine ⟨(handleEvent env e ++ [Effect.spawn (Goroutine.nextEvent (some es))]) ++ effs, ?_, ?_⟩
      · simp [loopRun, loopBody, hrun]
      · simp [spawned_append, spawned_handleEvent, spawned, hsp]
    | none =>
      have hf : failureCount (none :: ms) = failureCount ms + 1 := by simp [failureCount]
      rw [hf] at hc ⊢
      obtain ⟨effs, hrun, hsp⟩ := ih (c + 1) (by omega)
      have hlt : ¬ (2 < c + 1) := by omega
      refine ⟨[Effect.spawn (Goroutine.nextEvent (some es))] ++ effs, ?_, ?_⟩
      · have : c + 1 + failureCount ms = c + (failureCount ms + 1) := by omega
        simp [loopRun, loopBody, hlt, hrun, this]
      · simp [spawned_append, spawned, hsp]

/-- C3, refuted as stated: the failures need not be consecutive.  Two failures,
each followed by a delivered event, and then a third failure trigger the
resubscribe: the delivered events did not reset the counter. -/
theorem separated_failures_resubscribe :
    (loopRun sampleEnv { subscription := some 7, nextErrCount := 0 }
        [Msg.event none, Msg.event sampleDelivered, Msg.event none, Msg.event sampleDelivered,
          Msg.event none]).map (fun p => (p.1, spawned p.2)) =
      some ({ subscription := some 7, nextErrCount := 0 },
        [Goroutine.nextEvent (some 7), Goroutine.nextEvent (some 7), Goroutine.nextEvent (some 7),
          Goroutine.nextEvent (some 7), Goroutine.subscribeToEvents]) ∧
    (loopRun sampleEnv { subscription := some 7, nextErrCount := 0 }
        [Msg.event none, Msg.event sampleDelivered]).map (fun p => p.1.nextErrCount) = some 1 := by
  decide

/-- C3, amended: the error counter counts the failures since the last resubscribe,
whether or not events were delivered between them.  For every sequence of
next-event results on one subscription that starts at counter 0 and holds fewer
than three failures, the counter ends as the number of failures in the sequence
(a delivered event leaves it unchanged), no subscribe attempt is started, and
the next failure triggers the resubscribe exactly when the sequence held two
failures. -/
theorem nextErrCount_counts_all_failures (env : Env) (es : EventSource)
    (ms : List (Option Event)) (h : failureCount ms < 3) :
    ∃ effs, loopRun env { subscription := some es, nextErrCount := 0 } (ms.map Msg.event) =
        some ({ subscription := some es, nextErrCount := failureCount ms }, effs) ∧
      Goroutine.subscribeToEvents ∉ spawned effs ∧
      (Goroutine.subscribeToEvents ∈
          spawned (loopBody env { subscription := some es, nextErrCount := failureCount ms }
            (Msg.event none)).effects ↔ failureCount ms = 2) := by
  obtain ⟨effs, hrun, hsp⟩ := loopRun_events env es ms 0 (by omega)
  refine ⟨effs, by simpa using hrun, hsp, ?_⟩
  by_cases h2 : failureCount ms = 2
  · simp [loopBody, h2, Outcome.effects, spawned]
  · have hlt : ¬ (2 < failureCount ms + 1) := by omega
    simp [loopBody, h2, hlt, Outcome.effects, spawned]

/-- Witness for C3 amended: a failure, a delivered event and a second failure. -/
theorem nextErrCount_counts_all_failures_witness :
    failureCount [none, sampleDelivered, none] < 3 ∧
    ∃ effs, loopRun sampleEnv { subscription := some 7, nextErrCount := 0 }
        ([none, sampleDelivered, none].map Msg.event) =
        some ({ subscription := some 7,
                nextErrCount := failureCount [none, sampleDelivered, none] }, effs) ∧
      Goroutine.subscribeToEvents ∉ spawned effs ∧
      (Goroutine.subscribeToEvents ∈
          spawned (loopBody sampleEnv
            { subscription := some 7,
              nextErrCount := failureCount [none, sampleDelivered, none] }
            (Msg.event none)).effects ↔ failureCount [none, sampleDelivered, none] = 2) :=
  ⟨by decide, nextErrCount_counts_all_failures sampleEnv 7 [none, sampleDelivered, none]
    (by decide)⟩

/-! ## Theorems: shutdown -/

/-- C4, evaluated on the code: when the shutdown signal is the first thing the
loop receives, or arrives after a failed subscribe attempt, the subscription
variable is nil and the call of `Close` on it panics; `Run` does not return.
The same holds in every loop state without a subscription. -/
theorem signal_without_subscription_panics :
    (run sampleEnv Run.init [Input.signal none]).map (fun s => s.status) =
      some Status.panicked ∧
    (run sampleEnv Run.init
        [Input.subscribeReturns (SubscribeResult.failed "unreachable"),
          Input.selectSubscription, Input.signal none]).map (fun s => s.status) =
      some Status.panicked ∧
    ∀ (env : Env) (n : Nat) (closeErr : Option String),
      loopBody env { subscription := none, nextErrCount := n } (Msg.signal closeErr) =
        Outcome.panicked [Effect.logInfo "stopping", Effect.logInfo "finished"] := by
  refine ⟨by decide, by decide, ?_⟩
  intro env n closeErr
  rfl

/-! ## Theorems: runs of `Watcher.Run` -/


/-- One step of a run keeps the shape of goroutines and channels, and a step
other than the arrival of the signal leaves `Run` in its loop. -/
theorem sysStep_inv (env : Env) (s s1 : Sys) (i : Input) (hinv : s.Inv)
    (h : sysStep env s i = some s1) :
    s1.Inv ∧ (i.isSignal = false → s.status = Status.running → s1.status = Status.running) := by
  obtain ⟨loop, gs, sc, ec, status, tr⟩ := s
  simp only [Sys.Inv] at hinv
  rcases hinv with ⟨h1, h2, h3⟩ | ⟨v, h1, h2, h3⟩ | ⟨es, h1, h2, h3, h4⟩ | ⟨es, v, h1, h2, h3, h4⟩ |
      ⟨h1, h2, h3⟩
  · subst h1 h2 h3
    cases i <;> simp [sysStep] at h
    · obtain ⟨_, rfl⟩ := h
      simp [Sys.Inv, Input.isSignal]
    · obtain ⟨rfl, rfl⟩ := h
      obtain ⟨sub, n⟩ := loop
      cases sub <;> simp [loopBody, applyOutcome, Sys.Inv, Input.isSignal]
  · subst h1 h2 h3
    cases i <;> simp [sysStep] at h
    · obtain ⟨rfl, rfl⟩ := h
      cases v <;> simp [loopBody, applyOutcome, Sys.Inv, Input.isSignal, spawned]
    · obtain ⟨rfl, rfl⟩ := h
      obtain ⟨sub, n⟩ := loop
      cases sub <;> simp [loopBody, applyOutcome, Sys.Inv, Input.isSignal]
  · subst h1 h2 h3
    cases i <;> simp [sysStep] at h
    · obtain ⟨⟨_, rfl⟩, h⟩ := h
      simp only at h
      split_ifs at h
      cases hn : (nextEvent ‹NextResult›).2 <;> simp [hn] at h <;> subst h <;>
        simp [Sys.Inv, Input.isSignal, h4]
    · obtain ⟨rfl, rfl⟩ := h
      obtain ⟨sub, n⟩ := loop
      cases sub <;> simp [loopBody, applyOutcome, Sys.Inv, Input.isSignal]
      all_goals simp_all
  · subst h1 h2 h3
    cases i <;> simp [sysStep] at h
    · obtain ⟨rfl, rfl⟩ := h
      obtain ⟨sub, n⟩ := loop
      simp only at h4
      subst h4
      cases v with
      | some e =>
        simp [loopBody, applyOutcome, Sys.Inv, Input.isSignal, spawned, spawned_append,
          spawned_handleEvent]
      | none =>
        by_cases hn : 2 < n + 1 <;>
          simp [loopBody, applyOutcome, Sys.Inv, Input.isSignal, spawned, hn]
    · obtain ⟨rfl, rfl⟩ := h
      obtain ⟨sub, n⟩ := loop
      cases sub <;> simp [loopBody, applyOutcome, Sys.Inv, Input.isSignal]
      all_goals simp_all
  · subst h1 h2 h3
    cases i <;> simp [sysStep] at h
    obtain ⟨rfl, rfl⟩ := h
    obtain ⟨sub, n⟩ := loop
    cases sub <;> simp [loopBody, applyOutcome, Sys.Inv, Input.isSignal]

/-- The function `handleEvent` closes no event source. -/
theorem closeSource_not_mem_handleEvent (env : Env) (e : Event) (es : EventSource) :
    Effect.closeSource es ∉ handleEvent env e := by
  cases e with
  | otherEvent t => simp [handleEvent]
  | ActualLRPChangedEvent b a =>
    simp only [handleEvent]
    split_ifs <;> simp

/-- One step of a run keeps the result nil and the rule that only a returned
`Run` has closed a source. -/
theorem sysStep_closing (env : Env) (s s1 : Sys) (i : Input) (hinv : s.Inv)
    (hcl : s.Closing) (h : sysStep env s i = some s1) : s1.Closing := by
  obtain ⟨loop, gs, sc, ec, status, tr⟩ := s
  obtain ⟨sub, n⟩ := loop
  obtain ⟨hres, hclose⟩ := hcl
  simp only at hres hclose
  cases i with
  | subscribeReturns r =>
    simp only [sysStep] at h
    split_ifs at h
    simp only [Option.some.injEq] at h
    subst h
    refine ⟨hres, ?_⟩
    intro es hmem
    cases r <;> simp [subscribeToEvents] at hmem <;> exact hclose es hmem
  | nextReturns eso r =>
    simp only [sysStep] at h
    by_cases hc : status ≠ Status.panicked ∧ gs.contains (Goroutine.nextEvent eso) = true
    swap
    · rw [if_neg hc] at h
      exact Option.noConfusion h
    rw [if_pos hc] at h
    cases eso with
    | none =>
      exfalso
      have hmem : Goroutine.nextEvent none ∈ gs := by simpa using hc.2
      simp only [Sys.Inv] at hinv
      rcases hinv with ⟨h1, -, -⟩ | ⟨v, h1, -, -⟩ | ⟨es, h1, -, -, -⟩ | ⟨es, v, h1, -, -, -⟩ |
          ⟨h1, -, -⟩ <;> subst h1 <;> simp at hmem
    | some e =>
      simp only at h
      split_ifs at h
      all_goals
        first
          | exact Option.noConfusion h
          | (split at h
             all_goals
               first
                 | exact Option.noConfusion h
                 | (try split_ifs at h
                    simp only [Option.some.injEq] at h
                    subst h
                    refine ⟨hres, ?_⟩
                    intro es hmem
                    have hlog : Effect.closeSource es ∉ (nextEvent r).1 := by
                      simp only [nextEvent]
                      split <;> simp
                    simp only [List.mem_append] at hmem
                    rcases hmem with hmem | hmem
                    · exact hclose es hmem
                    · exact absurd hmem hlog))
  | selectSubscription =>
    simp only [sysStep] at h
    split_ifs at h with hst
    simp only [ne_eq, not_not] at hst
    subst hst
    have hno : ∀ es, Effect.closeSource es ∉ tr := fun es hm => by
      have := hclose es hm
      simp at this
    cases sc with
    | nil => simp at h
    | cons v rest =>
      simp only [Option.some.injEq] at h
      subst h
      cases v <;> simp [loopBody, applyOutcome, Sys.Closing, hno]
  | selectEvent =>
    simp only [sysStep] at h
    split_ifs at h with hst
    simp only [ne_eq, not_not] at hst
    subst hst
    have hno : ∀ es, Effect.closeSource es ∉ tr := fun es hm => by
      have := hclose es hm
      simp at this
    cases ec with
    | nil => simp at h
    | cons v rest =>
      simp only [Option.some.injEq] at h
      subst h
      cases v with
      | some e =>
        simp [loopBody, applyOutcome, Sys.Closing, hno, closeSource_not_mem_handleEvent]
      | none =>
        by_cases hn : 2 < n + 1 <;> simp [loopBody, applyOutcome, Sys.Closing, hno, hn]
  | signal closeErr =>
    simp only [sysStep] at h
    split_ifs at h with hst
    simp only [ne_eq, not_not] at hst
    subst hst
    have hno : ∀ es, Effect.closeSource es ∉ tr := fun es hm => by
      have := hclose es hm
      simp at this
    simp only [Option.some.injEq] at h
    subst h
    cases sub <;> simp [loopBody, applyOutcome, Sys.Closing, hno]

/-- The shape of goroutines and channels holds along every run, a run without a
signal stays in the loop, and the status rules of `Sys.Closing` are kept. -/
theorem run_inv (env : Env) (inputs : List Input) :
    ∀ s s1 : Sys, s.Inv → run env s inputs = some s1 →
      s1.Inv ∧
      (inputs.any Input.isSignal = false → s.status = Status.running →
        s1.status = Status.running) ∧
      (s.Closing → s1.Closing) := by
  induction inputs with
  | nil =>
    intro s s1 hinv h
    simp only [run, Option.some.injEq] at h
    subst h
    exact ⟨hinv, fun _ hs => hs, fun hs => hs⟩
  | cons i rest ih =>
    intro s s1 hinv h
    simp only [run] at h
    cases hstep : sysStep env s i with
    | none => simp [hstep] at h
    | some s2 =>
      simp only [hstep] at h
      obtain ⟨hinv2, hrun2⟩ := sysStep_inv env s s2 i hinv hstep
      obtain ⟨hinv1, hrun1, hcl1⟩ := ih s2 s1 hinv2 h
      refine ⟨hinv1, ?_, ?_⟩
      · intro hns hs
        simp only [List.any_cons, Bool.or_eq_false_iff] at hns
        exact hrun1 hns.2 (hrun2 hns.1 hs)
      · intro hcl
        exact hcl1 (sysStep_closing env s s2 i hinv hcl hstep)

/-- The state in which `Run` enters its loop is running and has closed no
source. -/
theorem init_closing : Run.init.Closing := by
  simp [Sys.Closing, Run.init]

/-- The state in which `Run` enters its loop has the shape of one running
subscribe attempt. -/
theorem init_inv : Run.init.Inv := by
  simp [Sys.Inv, Run.init]

/-- C5: `Run` ends only on the shutdown signal.  In every run from the start of
the loop, whatever the subscribe results and next-event results, `Run` is still
in its loop while no signal has arrived; whenever it has returned, its result is
nil; and when the signal arrives while the loop holds a subscription, `Run`
returns nil whether or not `Close` returned an error. -/
theorem Run_returns_only_on_signal (env : Env) (inputs : List Input) (s : Sys)
    (h : run env Run.init inputs = some s) :
    (inputs.any Input.isSignal = false → s.status = Status.running) ∧
    (∀ result, s.status = Status.returned result → result = none) ∧
    (∀ (es : EventSource) (closeErr : Option String),
      s.status = Status.running → s.loop.subscription = some es →
        (sysStep env s (Input.signal closeErr)).map (fun s1 => s1.status) =
          some (Status.returned none)) := by
  obtain ⟨_, hrun, hcl⟩ := run_inv env inputs Run.init s init_inv h
  refine ⟨fun hns => hrun hns rfl, (hcl init_closing).1, ?_⟩
  intro es closeErr hst hsub
  obtain ⟨loop, gs, sc, ec, status, tr⟩ := s
  obtain ⟨sub, n⟩ := loop
  simp only at hst hsub
  subst hst hsub
  simp [sysStep, loopBody, applyOutcome]

/-- Witness for C5: the run in which the first subscribe attempt succeeds. -/
theorem Run_returns_only_on_signal_witness :
    run sampleEnv Run.init [Input.subscribeReturns (SubscribeResult.ok 7),
        Input.selectSubscription] = some sampleSubscribed ∧
    ((([Input.subscribeReturns (SubscribeResult.ok 7), Input.selectSubscription] :
        List Input).any Input.isSignal = false → sampleSubscribed.status = Status.running) ∧
    (∀ result, sampleSubscribed.status = Status.returned result → result = none) ∧
    (∀ (es : EventSource) (closeErr : Option String),
      sampleSubscribed.status = Status.running → sampleSubscribed.loop.subscription = some es →
        (sysStep sampleEnv sampleSubscribed (Input.signal closeErr)).map (fun s1 => s1.status) =
          some (Status.returned none))) :=
  ⟨by decide, Run_returns_only_on_signal sampleEnv
    [Input.subscribeReturns (SubscribeResult.ok 7), Input.selectSubscription] sampleSubscribed
    (by decide)⟩

/-- C6: in every reachable state of a run at most one subscribe attempt or
next-event fetch is outstanding (running, or with its result waiting in a
channel), and so at most one next-event fetch: the loop starts a goroutine only
in the iteration that has just received the result of the previous one. -/
theorem at_most_one_outstanding (env : Env) (inputs : List Input) (s : Sys)
    (h : run env Run.init inputs = some s) :
    s.outstanding ≤ 1 ∧ s.outstandingFetches ≤ 1 := by
  obtain ⟨hinv, _, _⟩ := run_inv env inputs Run.init s init_inv h
  rcases hinv with ⟨h1, h2, h3⟩ | ⟨v, h1, h2, h3⟩ | ⟨es, h1, h2, h3, _⟩ | ⟨es, v, h1, h2, h3, _⟩ |
      ⟨h1, h2, h3⟩ <;>
    simp [Sys.outstanding, Sys.outstandingFetches, h1, h2, h3]

/-- Witness for C6: the run in which the first fetch fails once. -/
theorem at_most_one_outstanding_witness :
    run sampleEnv Run.init [Input.subscribeReturns (SubscribeResult.ok 7),
        Input.selectSubscription,
        Input.nextReturns (some 7) { event := none, err := some (NextError.otherError "eof") },
        Input.selectEvent] = some sampleOneFailure ∧
    (sampleOneFailure.outstanding ≤ 1 ∧ sampleOneFailure.outstandingFetches ≤ 1) :=
  ⟨by decide, at_most_one_outstanding sampleEnv
    [Input.subscribeReturns (SubscribeResult.ok 7), Input.selectSubscription,
      Input.nextReturns (some 7) { event := none, err := some (NextError.otherError "eof") },
      Input.selectEvent] sampleOneFailure (by decide)⟩

/-! ## Theorems: the crash report and its delivery -/

/-- C7: for every crash transition handled by `handleEvent`, the one task that is
submitted is keyed by the process guid of the after snapshot and carries the
index, crash count, timestamp and crash reason of the after snapshot, the
instance guid of the before snapshot and the reason CRASHED; running the task
calls the notification sink with exactly that key and report. -/
theorem crash_report_fields (env : Env) (Before After : ActualLRPGroup)
    (hd : (env.Resolve After).Domain = env.AppLRPDomain)
    (hc : (env.Resolve After).CrashCount > (env.Resolve Before).CrashCount) :
    submitted (handleEvent env (Event.ActualLRPChangedEvent Before After)) =
      [{ guid := (env.Resolve After).ProcessGuid
         appCrashed :=
          { Instance := (env.Resolve Before).InstanceGuid
            Index := (env.Resolve After).Index
            Reason := "CRASHED"
            ExitDescription := (env.Resolve After).CrashReason
            CrashCount := (env.Resolve After).CrashCount
            CrashTimestamp := (env.Resolve After).Since } }] ∧
    ∀ (cc : String → AppCrashedRequest → Option String),
      (submitted (handleEvent env (Event.ActualLRPChangedEvent Before After))).map
          (fun t => sinkCalls (t.run cc)) =
        [[((env.Resolve After).ProcessGuid,
          { Instance := (env.Resolve Before).InstanceGuid
            Index := (env.Resolve After).Index
            Reason := "CRASHED"
            ExitDescription := (env.Resolve After).CrashReason
            CrashCount := (env.Resolve After).CrashCount
            CrashTimestamp := (env.Resolve After).Since })]] := by
  have hsub : submitted (handleEvent env (Event.ActualLRPChangedEvent Before After)) =
      [{ guid := (env.Resolve After).ProcessGuid
         appCrashed :=
          { Instance := (env.Resolve Before).InstanceGuid
            Index := (env.Resolve After).Index
            Reason := "CRASHED"
            ExitDescription := (env.Resolve After).CrashReason
            CrashCount := (env.Resolve After).CrashCount
            CrashTimestamp := (env.Resolve After).Since } }] := by
    simp [handleEvent, hd, hc, submitted]
  refine ⟨hsub, ?_⟩
  intro cc
  rw [hsub]
  simp only [List.map_cons, List.map_nil, NotifyTask.run]
  cases cc _ _ <;> simp [sinkCalls]

/-- Witness for C7: instance `i-0` with crash count 1 is replaced by instance
`i-1` with crash count 2; the report names `i-0`. -/
theorem crash_report_fields_witness :
    (sampleEnv.Resolve (sampleLRP "i-1" 2)).Domain = sampleEnv.AppLRPDomain ∧
    (sampleEnv.Resolve (sampleLRP "i-1" 2)).CrashCount >
      (sampleEnv.Resolve (sampleLRP "i-0" 1)).CrashCount ∧
    submitted (handleEvent sampleEnv
        (Event.ActualLRPChangedEvent (sampleLRP "i-0" 1) (sampleLRP "i-1" 2))) =
      [{ guid := "app-1"
         appCrashed :=
          { Instance := "i-0", Index := 2, Reason := "CRASHED",
            ExitDescription := "out of memory", CrashCount := 2, CrashTimestamp := 1700 } }] :=
  ⟨by decide, by decide,
    (crash_report_fields sampleEnv (sampleLRP "i-0" 1) (sampleLRP "i-1" 2)
      (by decide) (by decide)).1⟩

/-- C8: the notification task calls the sink exactly once, with its key and
report, whatever the sink returns; after a sink error the task only writes an
error log line: it makes no second call, starts no goroutine and submits no
task.  The loop iteration that handled the event continues with the loop state
unchanged, whatever the sink does. -/
theorem notify_task_calls_sink_once (cc : String → AppCrashedRequest → Option String)
    (t : NotifyTask) (env : Env) (st : LoopState) (e : Event) :
    sinkCalls (t.run cc) = [(t.guid, t.appCrashed)] ∧
    spawned (t.run cc) = [] ∧
    submitted (t.run cc) = [] ∧
    t.run cc =
      [Effect.logInfo "recording-app-crashed", Effect.appCrashedCall t.guid t.appCrashed] ++
        (cc t.guid t.appCrashed).toList.map (Effect.logError "failed-recording-app-crashed") ∧
    loopBody env st (Msg.event (some e)) =
      Outcome.continues st
        (handleEvent env e ++ [Effect.spawn (Goroutine.nextEvent st.subscription)]) := by
  refine ⟨?_, ?_, ?_, ?_, rfl⟩ <;>
    (simp only [NotifyTask.run]; cases cc t.guid t.appCrashed <;>
      simp [sinkCalls, spawned, submitted])

/-! ## Theorems: status aggregation -/

/-- The reconciliation yields the indices below the declared count, in order. -/
theorem reconcile_indices (desired : DesiredRecord) (actuals : List ActualInstanceRecord) :
    (reconcile desired actuals).map (fun v => v.index) = List.range desired.instances := by
  unfold reconcile
  rw [List.map_map]
  conv_rhs => rw [← List.map_id (List.range desired.instances)]
  apply List.map_congr_left
  intro i _
  simp only [Function.comp, id]
  cases hf : actuals.find? (fun a => a.index == i) with
  | none => rfl
  | some a =>
    have := List.find?_some hf
    simpa [projectRecord] using this

/-- C9: for every declared instance count and every set of records (in particular
every set whose indices lie below the declared count), the single-process status
operation succeeds with exactly as many views as declared, the indices of the
views are exactly the indices below the declared count, none repeated, and each
such index has exactly one view. -/
theorem lrpStatus_one_view_per_index (dir : Directory) (guid : String)
    (desired : DesiredRecord) (actuals : List ActualInstanceRecord)
    (hd : dir.GetDesired guid = Except.ok desired)
    (ha : dir.GetActualInstances guid = Except.ok actuals) :
    ∃ views, lrpStatus dir guid = Except.ok views ∧
      views.length = desired.instances ∧
      views.map (fun v => v.index) = List.range desired.instances ∧
      (views.map (fun v => v.index)).Nodup ∧
      ∀ i, i < desired.instances → (views.filter (fun v => v.index == i)).length = 1 := by
  refine ⟨reconcile desired actuals, by simp [lrpStatus, hd, ha], ?_, reconcile_indices _ _, ?_, ?_⟩
  · simp [reconcile]
  · rw [reconcile_indices]
    exact List.nodup_range _
  · intro i hi
    have h1 : (reconcile desired actuals).filter (fun v => v.index == i) =
        (reconcile desired actuals).filter ((fun n => n == i) ∘ fun v => v.index) := rfl
    rw [h1, ← List.length_map _ (fun v : InstanceStatusView => v.index), ← List.filter_map,
      reconcile_indices, ← List.countP_eq_length_filter, ← List.count]
    exact List.count_eq_one_of_mem (List.nodup_range _) (List.mem_range.mpr hi)

/-- Witness for C9: the process of the listener test, with three declared
instances and records for two of them. -/
theorem lrpStatus_one_view_per_index_witness :
    sampleDirectory.GetDesired "some-process-guid" = Except.ok sampleDesired ∧
    sampleDirectory.GetActualInstances "some-process-guid" = Except.ok sampleActuals ∧
    ∃ views, lrpStatus sampleDirectory "some-process-guid" = Except.ok views ∧
      views.length = sampleDesired.instances ∧
      views.map (fun v => v.index) = List.range sampleDesired.instances ∧
      (views.map (fun v => v.index)).Nodup ∧
      ∀ i, i < sampleDesired.instances → (views.filter (fun v => v.index == i)).length = 1 :=
  ⟨rfl, rfl, lrpStatus_one_view_per_index sampleDirectory "some-process-guid" sampleDesired
    sampleActuals rfl rfl⟩

/-- The view that the reconciliation yields at an index below the declared
count. -/
theorem reconcile_view_at (desired : DesiredRecord) (actuals : List ActualInstanceRecord)
    (i : Nat) (hi : i < desired.instances) :
    (reconcile desired actuals)[i]? =
      some (match actuals.find? (fun a => a.index == i) with
        | some a => projectRecord a
        | none => placeholderView desired.processGuid i) := by
  simp [reconcile, List.getElem?_range hi]

/-- C10: in the result of the status operation, every index below the declared
count that has no record holds the placeholder view (state Starting, empty
instance identifier, empty host, port 0, no usage sample), whatever the other
records are; an index that has a record holds a view with the state and the
instance identifier of that record. -/
theorem lrpStatus_placeholder_or_projection (dir : Directory) (guid : String)
    (desired : DesiredRecord) (actuals : List ActualInstanceRecord) (i : Nat)
    (hd : dir.GetDesired guid = Except.ok desired)
    (ha : dir.GetActualInstances guid = Except.ok actuals)
    (hi : i < desired.instances) :
    ∃ views, lrpStatus dir guid = Except.ok views ∧
      ((∀ a ∈ actuals, a.index ≠ i) →
        views[i]? = some
          { processGuid := desired.processGuid, index := i, instanceGuid := "",
            state := InstanceState.Starting, host := "", port := 0, usage := none }) ∧
      (∀ a ∈ actuals, a.index = i → (∀ b ∈ actuals, b.index = i → b = a) →
        (views[i]?).map (fun v => (v.index, v.state, v.instanceGuid)) =
          some (i, a.state, a.instanceGuid)) := by
  refine ⟨reconcile desired actuals, by simp [lrpStatus, hd, ha], ?_, ?_⟩
  · intro hnone
    rw [reconcile_view_at desired actuals i hi]
    have hf : actuals.find? (fun a => a.index == i) = none := by
      rw [List.find?_eq_none]
      intro a hmem
      simpa using hnone a hmem
    rw [hf]
    rfl
  · intro a hmem hidx huniq
    rw [reconcile_view_at desired actuals i hi]
    cases hf : actuals.find? (fun a => a.index == i) with
    | none =>
      rw [List.find?_eq_none] at hf
      have := hf a hmem
      simp [hidx] at this
    | some b =>
      have hb : b.index = i := by simpa using List.find?_some hf
      have hba : b = a := huniq b (List.mem_of_find?_eq_some hf) hb
      subst hba
      simp [projectRecord, hb]

/-- Witness for C10: index 2 of the process of the listener test has no
record. -/
theorem lrpStatus_placeholder_or_projection_witness :
    sampleDirectory.GetDesired "some-process-guid" = Except.ok sampleDesired ∧
    sampleDirectory.GetActualInstances "some-process-guid" = Except.ok sampleActuals ∧
    2 < sampleDesired.instances ∧
    ∃ views, lrpStatus sampleDirectory "some-process-guid" = Except.ok views ∧
      ((∀ a ∈ sampleActuals, a.index ≠ 2) →
        views[2]? = some
          { processGuid := sampleDesired.processGuid, index := 2, instanceGuid := "",
            state := InstanceState.Starting, host := "", port := 0, usage := none }) ∧
      (∀ a ∈ sampleActuals, a.index = 2 → (∀ b ∈ sampleActuals, b.index = 2 → b = a) →
        (views[2]?).map (fun v => (v.index, v.state, v.instanceGuid)) =
          some (2, a.state, a.instanceGuid)) :=
  ⟨rfl, rfl, by decide,
    lrpStatus_placeholder_or_projection sampleDirectory "some-process-guid" sampleDesired
      sampleActuals 2 rfl rfl (by decide)⟩

/-! ## Theorems: status with stats -/

/-- The views of the reconciliation carry no usage sample. -/
theorem reconcile_usage_none (desired : DesiredRecord) (actuals : List ActualInstanceRecord) :
    ∀ v ∈ reconcile desired actuals, v.usage = none := by
  intro v hv
  simp only [reconcile, List.mem_map, List.mem_range] at hv
  obtain ⟨i, _, rfl⟩ := hv
  cases actuals.find? (fun a => a.index == i) <;> rfl

/-- C11: for every process with a DesiredRecord, when the telemetry session
cannot be opened the status operation with stats gives the same outcome as the
operation without stats, so the telemetry failure adds no failure of its own;
with the records of the process fetched it succeeds with the views of the
no-stats operation, as many as declared, each without a usage sample. -/
theorem lrpStats_without_telemetry (dir : Directory) (tel : Telemetry) (guid : String)
    (desired : DesiredRecord) (err : String)
    (hd : dir.GetDesired guid = Except.ok desired)
    (ht : tel.OpenSession desired.logGuid = Except.error err) :
    lrpStats dir tel guid = lrpStatus dir guid ∧
    ∀ actuals, dir.GetActualInstances guid = Except.ok actuals →
      ∃ views, lrpStats dir tel guid = Except.ok views ∧
        lrpStatus dir guid = Except.ok views ∧
        views.length = desired.instances ∧
        views.map (fun v => v.index) = List.range desired.instances ∧
        ∀ v ∈ views, v.usage = none := by
  have heq : lrpStats dir tel guid = lrpStatus dir guid := by
    simp only [lrpStats, lrpStatus, hd, ht]
  refine ⟨heq, ?_⟩
  intro actuals ha
  refine ⟨reconcile desired actuals, ?_, ?_, ?_, reconcile_indices _ _,
    reconcile_usage_none _ _⟩
  · rw [heq]; simp [lrpStatus, hd, ha]
  · simp [lrpStatus, hd, ha]
  · simp [reconcile]

/-- Witness for C11: the process of the listener test while the traffic
controller is not running. -/
theorem lrpStats_without_telemetry_witness :
    sampleDirectory.GetDesired "some-process-guid" = Except.ok sampleDesired ∧
    sampleTelemetryDown.OpenSession sampleDesired.logGuid =
      Except.error "connection refused" ∧
    (lrpStats sampleDirectory sampleTelemetryDown "some-process-guid" =
        lrpStatus sampleDirectory "some-process-guid" ∧
      ∀ actuals, sampleDirectory.GetActualInstances "some-process-guid" = Except.ok actuals →
        ∃ views, lrpStats sampleDirectory sampleTelemetryDown "some-process-guid" =
            Except.ok views ∧
          lrpStatus sampleDirectory "some-process-guid" = Except.ok views ∧
          views.length = sampleDesired.instances ∧
          views.map (fun v => v.index) = List.range sampleDesired.instances ∧
          ∀ v ∈ views, v.usage = none) :=
  ⟨rfl, rfl, lrpStats_without_telemetry sampleDirectory sampleTelemetryDown "some-process-guid"
    sampleDesired "connection refused" rfl rfl⟩

/-! ## Theorems: closed source and subscribe results -/

/-- C13: for every failed subscribe attempt `subscribeToEvents` sends nil, and the
loop answers nil with exactly one new subscribe attempt and no fetch; for every
successful attempt it sends the new source, and the loop answers with exactly
one fetch on that source and no subscribe attempt. -/
theorem subscribe_result_handling (env : Env) (st : LoopState) (es : EventSource)
    (err : String) :
    (subscribeToEvents (SubscribeResult.failed err)).2 = none ∧
    loopBody env st (Msg.subscription (subscribeToEvents (SubscribeResult.failed err)).2) =
      Outcome.continues { st with subscription := none }
        [Effect.spawn Goroutine.subscribeToEvents] ∧
    (subscribeToEvents (SubscribeResult.ok es)).2 = some es ∧
    loopBody env st (Msg.subscription (subscribeToEvents (SubscribeResult.ok es)).2) =
      Outcome.continues { st with subscription := some es }
        [Effect.spawn (Goroutine.nextEvent (some es))] :=
  ⟨rfl, rfl, rfl, rfl⟩

/-- In a reachable state with a fetch running on a source that has been closed,
`Run` has returned nil, both channels are empty, and the fetch can end with
`ErrSourceClosed`, which leaves no goroutine and changes nothing else. -/
theorem closed_fetch_step (env : Env) (inputs : List Input) (s : Sys) (es : EventSource)
    (ev : Option Event) (h : run env Run.init inputs = some s)
    (hg : Goroutine.nextEvent (some es) ∈ s.goroutines)
    (hc : Effect.closeSource es ∈ s.trace) :
    s.status = Status.returned none ∧ s.subscriptionChan = [] ∧ s.eventChan = [] ∧
    sysStep env s (Input.nextReturns (some es)
        { event := ev, err := some NextError.ErrSourceClosed }) =
      some { s with goroutines := [] } := by
  obtain ⟨hinv, _, hcl⟩ := run_inv env inputs Run.init s init_inv h
  have hst := (hcl init_closing).2 es hc
  obtain ⟨loop, gs, sc, ec, status, tr⟩ := s
  simp only at hst hg hc
  subst hst
  rcases hinv with ⟨h1, h2, h3⟩ | ⟨v, h1, h2, h3⟩ | ⟨es1, h1, h2, h3, h4⟩ |
      ⟨es1, v, h1, h2, h3, h4⟩ | ⟨h1, h2, h3⟩ <;>
    simp only at h1 h2 h3 <;> subst h1 h2 h3 <;> simp at hg
  subst hg
  refine ⟨rfl, rfl, rfl, ?_⟩
  simp [sysStep, nextEvent, Sys.closed, hc]

/-- C12: whenever, in a reachable state, a fetch ends because `Next` reports
`ErrSourceClosed`, the loop has exited (`Run` has returned nil, after its call of
`Close`), `nextEvent` delivers nothing (both channels stay empty), the error
counter and the subscription variable are unchanged, no goroutine is left or
started, and no step follows: no subscribe attempt and no further fetch.  The
report does occur: a fetch running on a closed source can end this way. -/
theorem source_closed_exits_without_resubscribe (env : Env) (inputs : List Input) (s : Sys)
    (h : run env Run.init inputs = some s) :
    (∀ (ev : Option Event),
      (nextEvent { event := ev, err := some NextError.ErrSourceClosed }).2 = none) ∧
    (∀ (es : EventSource) (ev : Option Event) (s1 : Sys),
      sysStep env s (Input.nextReturns (some es)
          { event := ev, err := some NextError.ErrSourceClosed }) = some s1 →
        s.status = Status.returned none ∧ s1.status = Status.returned none ∧
        s1.loop = s.loop ∧ s1.trace = s.trace ∧
        s1.goroutines = [] ∧ s1.subscriptionChan = [] ∧ s1.eventChan = [] ∧
        ∀ i, sysStep env s1 i = none) ∧
    (∀ (es : EventSource) (ev : Option Event),
      Goroutine.nextEvent (some es) ∈ s.goroutines → Effect.closeSource es ∈ s.trace →
        (sysStep env s (Input.nextReturns (some es)
          { event := ev, err := some NextError.ErrSourceClosed })).isSome = true) := by
  refine ⟨fun _ => rfl, ?_, ?_⟩
  · intro es ev s1 hstep
    have hg : Goroutine.nextEvent (some es) ∈ s.goroutines := by
      by_contra hn
      simp [sysStep, hn] at hstep
    have hc : Effect.closeSource es ∈ s.trace := by
      by_contra hn
      simp [sysStep, Sys.closed, hn] at hstep
    obtain ⟨hst, hsc, hec, hs1⟩ := closed_fetch_step env inputs s es ev h hg hc
    rw [hs1, Option.some.injEq] at hstep
    subst hstep
    refine ⟨hst, hst, rfl, rfl, rfl, hsc, hec, ?_⟩
    intro i
    cases i <;> simp [sysStep, hst, hsc, hec]
  · intro es ev hg hc
    rw [(closed_fetch_step env inputs s es ev h hg hc).2.2.2]
    rfl

/-- Witness for C12: the signal arrives while the first fetch on source 7 is
running; `Run` closes the source and returns, and the fetch then ends with
`ErrSourceClosed`. -/
theorem source_closed_exits_without_resubscribe_witness :
    run sampleEnv Run.init [Input.subscribeReturns (SubscribeResult.ok 7),
        Input.selectSubscription, Input.signal none] = some sampleShutDown ∧
    sysStep sampleEnv sampleShutDown (Input.nextReturns (some 7)
        { event := none, err := some NextError.ErrSourceClosed }) =
      some { sampleShutDown with goroutines := [] } ∧
    (sampleShutDown.status = Status.returned none ∧
      ({ sampleShutDown with goroutines := [] } : Sys).status = Status.returned none ∧
      ({ sampleShutDown with goroutines := [] } : Sys).loop = sampleShutDown.loop ∧
      ({ sampleShutDown with goroutines := [] } : Sys).trace = sampleShutDown.trace ∧
      ({ sampleShutDown with goroutines := [] } : Sys).goroutines = [] ∧
      ({ sampleShutDown with goroutines := [] } : Sys).subscriptionChan = [] ∧
      ({ sampleShutDown with goroutines := [] } : Sys).eventChan = [] ∧
      ∀ i, sysStep sampleEnv { sampleShutDown with goroutines := [] } i = none) :=
  ⟨by decide, by decide,
    (source_closed_exits_without_resubscribe sampleEnv
      [Input.subscribeReturns (SubscribeResult.ok 7), Input.selectSubscription,
        Input.signal none] sampleShutDown (by decide)).2.1 7 none
      { sampleShutDown with goroutines := [] } (by decide)⟩

/-! ## The stats operation with the telemetry session open -/

/-- With the session open, the sample for index 0 of the listener test is merged
into the view of index 0 with the CPU stored as 3/100, and the other views keep
no usage sample. -/
theorem lrpStats_sample_merged :
    (match lrpStats sampleDirectory sampleTelemetryUp "some-process-guid" with
      | .ok views => views.map (fun v => v.usage.map (fun u => (u.cpu, u.memoryBytes)))
      | .error _ => []) = [some (3 / 100, 1024), none, none] := by
  rfl

end Tps
